import Mathlib

/-!
Verification of the boreal-smoke-nl ingestion-to-impact pipeline.

This file gives a shallow embedding, in Lean 4, of the parts of the
repository that the specification's testable properties talk about:

* `backend/models/fire_models.py` — the canonical entities (`Wildfire`,
  `WeatherData`, `WeatherForecast`, `AQHIPrediction`, `Community`) and their
  `to_dict` / `from_dict` serialization;
* `backend/functions/data_ingestion/wildfire_fetcher.py` — the multi-format
  fetcher (`fetch_active_fires`), the three parsers
  (`_parse_csv_fires`, `_parse_json_fires`, `_parse_kml_fires`), the record
  normalizer (`_create_wildfire_from_properties`, `_parse_fire_status`,
  `_is_in_nl_bounds`);
* `backend/functions/data_ingestion/main.py` — the location deduplicator
  (`_get_unique_locations`);
* `backend/update_data.py` — the impact predictor
  (`generate_predictions_with_real_aqhi`).

Modelling conventions:

* Python floats are modelled as exact rationals (`ℚ`).  Every constant that
  appears in the code (3.5, 7.7, 47.5, 0.75, …) is an exact decimal, so the
  rational model agrees with the float computation on all concrete inputs
  used below.
* `datetime` values are modelled by an abstract epoch stamp (`DateTime`).
  `isoformat` / `fromisoformat` form an exact inverse pair in the Python
  standard library, so an ISO-formatted date cell is modelled by the
  constructor `Value.vIso` carrying the `DateTime` it denotes.
* Distances: the code computes `sqrt(dlat^2 + dlon^2) * 111 < c` for positive
  literals `c`.  Both sides are nonnegative, so the comparison is equivalent
  to `(dlat^2 + dlon^2) * 111^2 < c^2`, which is how it is written here (this
  keeps everything inside `ℚ` and decidable).
* Network I/O is modelled by an environment (`FetchEnv`) listing, per wire
  format, the outcome of each successive HTTP request the code could make.
  Each fetch helper in the source performs exactly one `session.get` inside a
  `try/except` that converts every failure to `None`; accordingly the model
  consumes only the head outcome of the corresponding list.
-/

/-- Abstract timestamp standing for a Python `datetime` value.  Only identity
matters for the claims below; `epochMicros` fixes a concrete representation so
that everything stays decidable. -/
structure DateTime where
  epochMicros : ℤ
deriving DecidableEq, Repr

/-- Fire status enum, from `fire_models.py` (`class FireStatus(Enum)`). -/
inductive FireStatus where
  | OUT_OF_CONTROL
  | BEING_HELD
  | UNDER_CONTROL
  | OUT
  | UNKNOWN
deriving DecidableEq, Repr

/-- Enum payload string, from `fire_models.py` (`FireStatus.OUT_OF_CONTROL = "OC"`, …). -/
def FireStatus.value : FireStatus → String
  | .OUT_OF_CONTROL => "OC"
  | .BEING_HELD => "BH"
  | .UNDER_CONTROL => "UC"
  | .OUT => "OUT"
  | .UNKNOWN => "UNK"

/-- Inverse enum lookup `FireStatus(value)`; Python raises `ValueError` on an
unknown payload, modelled by `none`. -/
def FireStatus.fromValue (s : String) : Option FireStatus :=
  if s = "OC" then some .OUT_OF_CONTROL
  else if s = "BH" then some .BEING_HELD
  else if s = "UC" then some .UNDER_CONTROL
  else if s = "OUT" then some .OUT
  else if s = "UNK" then some .UNKNOWN
  else none

/-- Wildfire entity, from `fire_models.py` (`@dataclass class Wildfire`). -/
structure Wildfire where
  fire_id : String
  latitude : ℚ
  longitude : ℚ
  size_hectares : ℚ
  status : FireStatus
  start_date : DateTime
  last_updated : DateTime
  agency : String
  fire_name : Option String := none
  cause : Option String := none
deriving DecidableEq, Repr

/-- Weather entity, from `fire_models.py` (`@dataclass class WeatherData`; the
spec calls it WeatherObservation). -/
structure WeatherData where
  timestamp : DateTime
  latitude : ℚ
  longitude : ℚ
  wind_speed_kmh : ℚ
  wind_direction_degrees : ℚ
  temperature_celsius : ℚ
  relative_humidity : ℚ
  pressure_kpa : ℚ
  precipitation_mm : ℚ
deriving DecidableEq, Repr

/-- Forecast entity, from `fire_models.py` (`@dataclass class WeatherForecast`). -/
structure WeatherForecast where
  location_lat : ℚ
  location_lon : ℚ
  forecast_time : DateTime
  forecasts : List WeatherData
deriving DecidableEq, Repr

/-- Prediction entity, from `fire_models.py` (`@dataclass class AQHIPrediction`). -/
structure AQHIPrediction where
  timestamp : DateTime
  latitude : ℚ
  longitude : ℚ
  aqhi_value : ℤ
  pm25_concentration : ℚ
  source_fire_ids : List String
  confidence : ℚ
deriving DecidableEq, Repr

/-- Community entity, from `fire_models.py` (`@dataclass class Community`). -/
structure Community where
  name : String
  latitude : ℚ
  longitude : ℚ
  population : Option ℤ := none
  region : Option String := none
deriving DecidableEq, Repr

/-- Values stored in the dictionary representation produced by `to_dict`.
`vIso d` stands for the ISO-8601 string `d.isoformat()` (the standard library
guarantees `fromisoformat(isoformat(d)) = d`, so the string and the datetime
determine each other); `vNull` is Python `None`; `vStrList` a list of strings;
`vDictList` a list of nested dictionaries (used by `WeatherForecast.to_dict`). -/
inductive Value where
  | vStr (s : String)
  | vNum (q : ℚ)
  | vInt (n : ℤ)
  | vIso (d : DateTime)
  | vNull
  | vStrList (l : List String)
  | vDictList (l : List (List (String × Value)))

/-- Dictionary representation: an association list of key/value pairs. -/
abbrev Dict := List (String × Value)

/-- Key lookup in a dictionary (`data['k']` / `data.get('k')`). -/
def dictGet (d : Dict) (k : String) : Option Value :=
  match d with
  | [] => none
  | (k', v) :: rest => if k' = k then some v else dictGet rest k

/-- Encoding of an `Optional[str]` field as stored by `to_dict`. -/
def optStrValue : Option String → Value
  | some s => .vStr s
  | none => .vNull

/-- Decoding of an `Optional[str]` field (`data.get(k)`): a missing key or a
stored `None` both give `None`. -/
def asOptStr : Option Value → Option String
  | some (.vStr s) => some s
  | _ => none

/-- Required string field of `from_dict`; a missing key raises `KeyError`
(modelled by `none`). -/
def asStr : Option Value → Option String
  | some (.vStr s) => some s
  | _ => none

/-- Required numeric (float) field of `from_dict`. -/
def asNum : Option Value → Option ℚ
  | some (.vNum q) => some q
  | _ => none

/-- Required integer field of `from_dict`. -/
def asInt : Option Value → Option ℤ
  | some (.vInt n) => some n
  | _ => none

/-- Required ISO-date field of `from_dict` (`datetime.fromisoformat`). -/
def asIso : Option Value → Option DateTime
  | some (.vIso d) => some d
  | _ => none

/-- Required list-of-strings field of `from_dict`. -/
def asStrList : Option Value → Option (List String)
  | some (.vStrList l) => some l
  | _ => none

/-- Serialization `Wildfire.to_dict`, from `fire_models.py`. -/
def Wildfire.toDict (w : Wildfire) : Dict :=
  [("fire_id", .vStr w.fire_id),
   ("latitude", .vNum w.latitude),
   ("longitude", .vNum w.longitude),
   ("size_hectares", .vNum w.size_hectares),
   ("status", .vStr w.status.value),
   ("start_date", .vIso w.start_date),
   ("last_updated", .vIso w.last_updated),
   ("agency", .vStr w.agency),
   ("fire_name", optStrValue w.fire_name),
   ("cause", optStrValue w.cause)]

/-- Reconstruction `Wildfire.from_dict`, from `fire_models.py`. -/
def Wildfire.fromDict (d : Dict) : Option Wildfire := do
  let fire_id ← asStr (dictGet d "fire_id")
  let latitude ← asNum (dictGet d "latitude")
  let longitude ← asNum (dictGet d "longitude")
  let size_hectares ← asNum (dictGet d "size_hectares")
  let status ← (asStr (dictGet d "status")).bind FireStatus.fromValue
  let start_date ← asIso (dictGet d "start_date")
  let last_updated ← asIso (dictGet d "last_updated")
  let agency ← asStr (dictGet d "agency")
  some { fire_id, latitude, longitude, size_hectares, status, start_date,
         last_updated, agency,
         fire_name := asOptStr (dictGet d "fire_name"),
         cause := asOptStr (dictGet d "cause") }

/-- Serialization `WeatherData.to_dict`, from `fire_models.py`. -/
def WeatherData.toDict (w : WeatherData) : Dict :=
  [("timestamp", .vIso w.timestamp),
   ("latitude", .vNum w.latitude),
   ("longitude", .vNum w.longitude),
   ("wind_speed_kmh", .vNum w.wind_speed_kmh),
   ("wind_direction_degrees", .vNum w.wind_direction_degrees),
   ("temperature_celsius", .vNum w.temperature_celsius),
   ("relative_humidity", .vNum w.relative_humidity),
   ("pressure_kpa", .vNum w.pressure_kpa),
   ("precipitation_mm", .vNum w.precipitation_mm)]

/-- Reconstruction `WeatherData.from_dict`, from `fire_models.py`. -/
def WeatherData.fromDict (d : Dict) : Option WeatherData := do
  let timestamp ← asIso (dictGet d "timestamp")
  let latitude ← asNum (dictGet d "latitude")
  let longitude ← asNum (dictGet d "longitude")
  let wind_speed_kmh ← asNum (dictGet d "wind_speed_kmh")
  let wind_direction_degrees ← asNum (dictGet d "wind_direction_degrees")
  let temperature_celsius ← asNum (dictGet d "temperature_celsius")
  let relative_humidity ← asNum (dictGet d "relative_humidity")
  let pressure_kpa ← asNum (dictGet d "pressure_kpa")
  let precipitation_mm ← asNum (dictGet d "precipitation_mm")
  some { timestamp, latitude, longitude, wind_speed_kmh,
         wind_direction_degrees, temperature_celsius, relative_humidity,
         pressure_kpa, precipitation_mm }

/-- Serialization `WeatherForecast.to_dict`, from `fire_models.py`.  Note the
source defines no `from_dict` for this class. -/
def WeatherForecast.toDict (w : WeatherForecast) : Dict :=
  [("location_lat", .vNum w.location_lat),
   ("location_lon", .vNum w.location_lon),
   ("forecast_time", .vIso w.forecast_time),
   ("forecasts", .vDictList (w.forecasts.map WeatherData.toDict))]

/-- Serialization `AQHIPrediction.to_dict`, from `fire_models.py`. -/
def AQHIPrediction.toDict (p : AQHIPrediction) : Dict :=
  [("timestamp", .vIso p.timestamp),
   ("latitude", .vNum p.latitude),
   ("longitude", .vNum p.longitude),
   ("aqhi_value", .vInt p.aqhi_value),
   ("pm25_concentration", .vNum p.pm25_concentration),
   ("source_fire_ids", .vStrList p.source_fire_ids),
   ("confidence", .vNum p.confidence)]

/-- Reconstruction `AQHIPrediction.from_dict`, from `fire_models.py`. -/
def AQHIPrediction.fromDict (d : Dict) : Option AQHIPrediction := do
  let timestamp ← asIso (dictGet d "timestamp")
  let latitude ← asNum (dictGet d "latitude")
  let longitude ← asNum (dictGet d "longitude")
  let aqhi_value ← asInt (dictGet d "aqhi_value")
  let pm25_concentration ← asNum (dictGet d "pm25_concentration")
  let source_fire_ids ← asStrList (dictGet d "source_fire_ids")
  let confidence ← asNum (dictGet d "confidence")
  some { timestamp, latitude, longitude, aqhi_value, pm25_concentration,
         source_fire_ids, confidence }

/-- Serialization `Community.to_dict`, from `fire_models.py` (no `from_dict`
exists for this class either). -/
def Community.toDict (c : Community) : Dict :=
  [("name", .vStr c.name),
   ("latitude", .vNum c.latitude),
   ("longitude", .vNum c.longitude),
   ("population", match c.population with | some n => .vInt n | none => .vNull),
   ("region", optStrValue c.region)]

/-- Entity classes of the data model (`fire_models.py`). -/
inductive EntityKind where
  | wildfire
  | weatherData
  | weatherForecast
  | aqhiPrediction
  | community
deriving DecidableEq, Repr

/-- Which dataclasses of `fire_models.py` define a `from_dict` classmethod:
`Wildfire` (lines 48-62), `WeatherData` (92-105) and `AQHIPrediction`
(149-160) do; `WeatherForecast` and `Community` define only `to_dict`. -/
def hasFromDict : EntityKind → Bool
  | .wildfire => true
  | .weatherData => true
  | .weatherForecast => false
  | .aqhiPrediction => true
  | .community => false

/-- Python `str.upper()` (ASCII case mapping suffices for the inputs here). -/
def pyUpper (s : String) : String := ⟨s.data.map Char.toUpper⟩

/-- Python `str.lower()`. -/
def pyLower (s : String) : String := ⟨s.data.map Char.toLower⟩

/-- Does `needle` occur at the head of `hay`? (helper for the substring test). -/
def matchesAt : List Char → List Char → Bool
  | _, [] => true
  | [], _ :: _ => false
  | h :: hs, n :: ns => h = n && matchesAt hs ns

/-- Does `needle` occur contiguously anywhere in `hay`? -/
def containsSeq : List Char → List Char → Bool
  | [], needle => needle.isEmpty
  | h :: hs, needle => matchesAt (h :: hs) needle || containsSeq hs needle

/-- Python's substring operator `needle in hay`. -/
def pyIn (needle hay : String) : Bool := containsSeq hay.data needle.data

/-- Status normalization `_parse_fire_status`, from `wildfire_fetcher.py`
lines 325-343: uppercase the input, then test each key of `status_map` (in
insertion order) as a substring; first hit wins, no hit gives `UNKNOWN`. -/
def parseFireStatus (status_str : String) : FireStatus :=
  let u := pyUpper status_str
  if pyIn "OC" u then .OUT_OF_CONTROL
  else if pyIn "OUT OF CONTROL" u then .OUT_OF_CONTROL
  else if pyIn "BH" u then .BEING_HELD
  else if pyIn "BEING HELD" u then .BEING_HELD
  else if pyIn "UC" u then .UNDER_CONTROL
  else if pyIn "UNDER CONTROL" u then .UNDER_CONTROL
  else if pyIn "OUT" u then .OUT
  else if pyIn "EXTINGUISHED" u then .OUT
  else .UNKNOWN

/-- Keys of `status_map` in their Python insertion (= iteration) order. -/
def statusMapKeys : List String :=
  ["OC", "OUT OF CONTROL", "BH", "BEING HELD", "UC", "UNDER CONTROL",
   "OUT", "EXTINGUISHED"]

/-- Geographic filter `_is_in_nl_bounds`, from `wildfire_fetcher.py` lines
318-323, with the `NL_BOUNDS` constants of lines 28-33. -/
def isInNlBounds (lat lon : ℚ) : Bool :=
  decide (46.5 ≤ lat ∧ lat ≤ 60.5 ∧ -67.5 ≤ lon ∧ lon ≤ -52.5)

/-- Result of Python `float(text)` on a cell: a parsed rational, or the
`ValueError` raised on unparseable text. -/
inductive PyFloat where
  | val (q : ℚ)
  | err
deriving DecidableEq, Repr

/-- Property bag handed to `_create_wildfire_from_properties`.  Each field is
the value stored under the like-named key (`none` = key absent, or — for the
numeric and date cells — absent-or-falsy, see the field comments).  Date cells
are modelled by the outcome of `_parse_date`'s fixed format list: the outer
`Option` is the Python truthiness of the raw string (absent/empty = `none`),
the inner `Option` whether one of the six formats matched. -/
structure RawProps where
  fire_id : Option String := none
  FIRE_ID : Option String := none
  irwinID : Option String := none
  hectares : Option PyFloat := none
  HECTARES : Option PyFloat := none
  area : Option PyFloat := none
  status : Option String := none
  STATUS : Option String := none
  start_date : Option (Option DateTime) := none
  START_DATE : Option (Option DateTime) := none
  discovered_date : Option (Option DateTime) := none
  last_updated : Option (Option DateTime) := none
  LAST_UPDATED : Option (Option DateTime) := none
  modified_date : Option (Option DateTime) := none
  agency : Option String := none
  fire_name : Option String := none
  cause : Option String := none
deriving DecidableEq, Repr

/-- Python `a or b` on optional strings: `None` and `''` are falsy. -/
def pyOrStr (a b : Option String) : Option String :=
  match a with
  | some s => if s = "" then b else some s
  | none => b

/-- Default fire id `f"NL_{datetime.now().timestamp()}"`. -/
def nlDefaultId (now : DateTime) : String := "NL_" ++ toString now.epochMicros

/-- The raw status string: `(properties.get('status', 'UNK') or
properties.get('STATUS', 'UNK') or 'UNK')` — note the `'UNK'` defaults are
truthy, so `STATUS` is consulted only when `status` is present but empty. -/
def statusRaw (p : RawProps) : String :=
  let s1 := p.status.getD "UNK"
  if s1 = "" then
    let s2 := p.STATUS.getD "UNK"
    if s2 = "" then "UNK" else s2
  else s1

/-- Size chain `properties.get('hectares', 0) or properties.get('HECTARES', 0)
or properties.get('area', 0) or 0`, then `float(...)`: `none` (absent or falsy
cell) falls through, ending at `float(0) = 0`; an unparseable truthy cell
raises, which the surrounding `try` turns into rejecting the record. -/
def parseSize (p : RawProps) : Option ℚ :=
  match p.hectares <|> p.HECTARES <|> p.area with
  | none => some 0
  | some (.val q) => some q
  | some .err => none

/-- Date fallback chain followed by `or datetime.now()`. -/
def dateChain (a b c : Option (Option DateTime)) (now : DateTime) : DateTime :=
  ((a <|> b <|> c).bind id).getD now

/-- Record normalizer `_create_wildfire_from_properties`, from
`wildfire_fetcher.py` lines 256-316.  The only operation inside its `try`
that can raise is the `float(...)` of the size chain, so the `except` branch
(returning `None`) is reached exactly when `parseSize` fails. -/
def createWildfireFromProperties (p : RawProps) (lat lon : ℚ) (now : DateTime) :
    Option Wildfire :=
  match parseSize p with
  | none => none
  | some size => some
    { fire_id := (pyOrStr p.fire_id (pyOrStr p.FIRE_ID p.irwinID)).getD (nlDefaultId now)
      latitude := lat
      longitude := lon
      size_hectares := size
      status := parseFireStatus (pyUpper (statusRaw p))
      start_date := dateChain p.start_date p.START_DATE p.discovered_date now
      last_updated := dateChain p.last_updated p.LAST_UPDATED p.modified_date now
      agency := p.agency.getD "NL"
      fire_name := p.fire_name
      cause := p.cause }

/-- A CSV row after `csv.DictReader` and key/value stripping (`_parse_csv_fires`
lines 121-123).  `lat`/`lon` merge the `'lat'`/`'latitude'` (resp.
`'lon'`/`'longitude'`) key fallback — `none` means both keys are absent, in
which case the code reads the default `0`.  `hectares` is `none` when the
column is absent (default `0`, falsy). -/
structure CsvRow where
  lat : Option PyFloat := none
  lon : Option PyFloat := none
  agency : Option String := none
  firename : Option String := none
  hectares : Option PyFloat := none
  stage_of_control : Option String := none
  startdate : Option (Option DateTime) := none
deriving DecidableEq, Repr

/-- Coordinate extraction `float(row.get('lat', row.get('latitude', 0)))` of
`_parse_csv_fires`; a `ValueError`/`TypeError` makes the row be skipped. -/
def csvFloatCell : Option PyFloat → Option ℚ
  | none => some 0
  | some (.val q) => some q
  | some .err => none

/-- Both coordinates of a CSV row, under the shared `try`. -/
def csvLatLon (r : CsvRow) : Option (ℚ × ℚ) := do
  let lat ← csvFloatCell r.lat
  let lon ← csvFloatCell r.lon
  return (lat, lon)

/-- The properties dict built by `_parse_csv_fires` lines 142-154 (the
coordinate, `response_type` and `timezone` entries are never read by
`_create_wildfire_from_properties` and are omitted). -/
def csvProps (r : CsvRow) : RawProps :=
  { fire_id := some (r.firename.getD "")
    agency := some (r.agency.getD "")
    hectares := r.hectares
    status := some (r.stage_of_control.getD "UNK")
    start_date := r.startdate }

/-- CSV parser `_parse_csv_fires`, from `wildfire_fetcher.py` lines 113-165:
per row, parse coordinates (skip on failure), apply the NL bounding-box
filter, the `agency == 'nl'` filter, then normalize; rejected rows are
dropped and parsing continues. -/
def parseCsvFires (now : DateTime) : List CsvRow → List Wildfire
  | [] => []
  | r :: rs =>
    match csvLatLon r with
    | none => parseCsvFires now rs
    | some (lat, lon) =>
      if isInNlBounds lat lon then
        if pyLower (r.agency.getD "") = "nl" then
          match createWildfireFromProperties (csvProps r) lat lon now with
          | some f => f :: parseCsvFires now rs
          | none => parseCsvFires now rs
        else parseCsvFires now rs
      else parseCsvFires now rs

/-- GeoJSON feature: `geometry.coordinates` (lon first) plus the properties
bag (`_parse_json_fires` lines 174-197). -/
structure JsonFeature where
  coordinates : List ℚ := []
  props : RawProps := {}
deriving DecidableEq, Repr

/-- JSON parser `_parse_json_fires`, from `wildfire_fetcher.py` lines 167-203:
skip features with fewer than two coordinates, else destructure
`lon, lat = coords[0], coords[1]`, apply the bounds and agency filters,
then normalize. -/
def parseJsonFires (now : DateTime) : List JsonFeature → List Wildfire
  | [] => []
  | f :: fs =>
    match f.coordinates with
    | lon :: lat :: _ =>
      if isInNlBounds lat lon then
        if pyLower (f.props.agency.getD "") = "nl" then
          match createWildfireFromProperties f.props lat lon now with
          | some w => w :: parseJsonFires now fs
          | none => parseJsonFires now fs
        else parseJsonFires now fs
      else parseJsonFires now fs
    | _ => parseJsonFires now fs

/-- KML placemark: the `Point/coordinates` text split on `','` (cells still to
be `float`-parsed, lon first), plus the `ExtendedData` properties
(`_parse_kml_fires` lines 214-247). -/
structure Placemark where
  point : Option (List PyFloat) := none
  props : RawProps := {}
deriving DecidableEq, Repr

/-- KML parser `_parse_kml_fires`, from `wildfire_fetcher.py` lines 205-254.
Unlike the CSV parser, the `float` conversions sit under the single
function-level `try`, so an unparseable coordinate aborts the whole loop and
the fires collected so far are returned (modelled by returning `[]` for the
remainder of the list). -/
def parseKmlFires (now : DateTime) : List Placemark → List Wildfire
  | [] => []
  | p :: ps =>
    match p.point with
    | none => parseKmlFires now ps
    | some cells =>
      match cells with
      | c0 :: c1 :: _ =>
        match c0, c1 with
        | .val lon, .val lat =>
          if isInNlBounds lat lon then
            if pyLower (p.props.agency.getD "") = "nl" then
              match createWildfireFromProperties p.props lat lon now with
              | some w => w :: parseKmlFires now ps
              | none => parseKmlFires now ps
            else parseKmlFires now ps
          else parseKmlFires now ps
        | _, _ => []
      | _ => parseKmlFires now ps

/-- Outcome of one HTTP request made by a fetch helper. -/
inductive FetchOutcome (α : Type) where
  | ok (payload : α)
  | httpError (code : ℕ)
  | netError
  | timedOut
deriving DecidableEq, Repr

/-- Did the request succeed? -/
def FetchOutcome.isOk {α : Type} : FetchOutcome α → Bool
  | .ok _ => true
  | _ => false

/-- A fetch helper (`_fetch_csv_fires` lines 77-88 and its JSON/KML twins)
performs exactly one `session.get` inside `try/except`, returning the payload
on success and `None` on any caught failure — transient or 4xx alike, with no
per-request retry.  It therefore consumes only the first outcome of the
request sequence. -/
def requestResult {α : Type} : List (FetchOutcome α) → Option α
  | [] => none
  | o :: _ =>
    match o with
    | .ok p => some p
    | _ => none

/-- The environment of one `fetch_active_fires` call: for each wire format,
the outcomes the successive HTTP requests to that endpoint would produce. -/
structure FetchEnv where
  csv : List (FetchOutcome (List CsvRow)) := []
  json : List (FetchOutcome (List JsonFeature)) := []
  kml : List (FetchOutcome (List Placemark)) := []

/-- Multi-format fetcher `fetch_active_fires`, from `wildfire_fetcher.py`
lines 42-75: try CSV, then JSON, then KML; a format is abandoned only when its
fetch helper returns `None`; a fetched payload is handed to that format's
parser and the result returned as-is; if all three fetches fail, log an error
and return the empty list.  (The `tenacity` retry decorator on the method
re-invokes it only when an exception escapes, which the internal handlers
prevent, so a single invocation is modelled.) -/
def fetchActiveFires (now : DateTime) (env : FetchEnv) : List Wildfire :=
  match requestResult env.csv with
  | some rows => parseCsvFires now rows
  | none =>
    match requestResult env.json with
    | some feats => parseJsonFires now feats
    | none =>
      match requestResult env.kml with
      | some pms => parseKmlFires now pms
      | none => []

/-- A `(lat, lon)` pair, as used by `_get_unique_locations`. -/
abbrev Location := ℚ × ℚ

/-- Squared planar degree distance between two locations. -/
def distSqDeg (a b : Location) : ℚ := (a.1 - b.1) ^ 2 + (a.2 - b.2) ^ 2

/-- The duplicate test of `_get_unique_locations` (`main.py` lines 197-207):
`distance_km < threshold_km` where `distance_km = sqrt(distSqDeg) * 111`,
written in the equivalent squared form (for a non-positive threshold the
comparison is always false, since the distance is nonnegative). -/
def withinThreshold (cand existing : Location) (t : ℚ) : Bool :=
  decide (0 < t ∧ distSqDeg cand existing * 111 ^ 2 < t ^ 2)

/-- The accumulator loop of `_get_unique_locations`: each candidate is kept
only when no already-accepted location is within the threshold. -/
def dedupeAux (t : ℚ) (acc : List Location) : List Location → List Location
  | [] => acc
  | l :: ls =>
    if acc.any fun e => withinThreshold l e t then dedupeAux t acc ls
    else dedupeAux t (acc ++ [l]) ls

/-- Deduplication of a plain location list (the body of
`_get_unique_locations`, `main.py` lines 175-212). -/
def dedupeLocations (t : ℚ) (ls : List Location) : List Location :=
  dedupeAux t [] ls

/-- `_get_unique_locations`: deduplicate the coordinates of a wildfire list
(default `threshold_km = 10`). -/
def getUniqueLocations (wildfires : List Wildfire) (threshold_km : ℚ) : List Location :=
  dedupeLocations threshold_km (wildfires.map fun f => (f.latitude, f.longitude))

/-- Segment `aqhi_value <= 3` of the index-to-PM2.5 table
(`update_data.py` line 86). -/
def pm25SegLow (a : ℤ) : ℚ := 5 + ((a : ℚ) - 1) * 3.5

/-- Segment `aqhi_value <= 6` (`update_data.py` line 88). -/
def pm25SegMid (a : ℤ) : ℚ := 12 + ((a : ℚ) - 3) * 7.7

/-- Segment `aqhi_value <= 8` (`update_data.py` line 90). -/
def pm25SegHigh (a : ℤ) : ℚ := 35 + ((a : ℚ) - 6) * 10

/-- Segment `aqhi_value <= 10` (`update_data.py` line 92). -/
def pm25SegVeryHigh (a : ℤ) : ℚ := 55 + ((a : ℚ) - 8) * 47.5

/-- Segment `aqhi_value > 10` (`update_data.py` line 94). -/
def pm25SegExtreme (a : ℤ) : ℚ := 150 + ((a : ℚ) - 10) * 50

/-- The piecewise index-to-PM2.5 conversion of
`generate_predictions_with_real_aqhi` (`update_data.py` lines 83-94).  Note
the direction: it derives a PM2.5 concentration from the (integer) AQHI
baseline, not the other way around. -/
def aqhiToPm25 (a : ℤ) : ℚ :=
  if a ≤ 3 then pm25SegLow a
  else if a ≤ 6 then pm25SegMid a
  else if a ≤ 8 then pm25SegHigh a
  else if a ≤ 10 then pm25SegVeryHigh a
  else pm25SegExtreme a

/-- The in-loop distance test `distance_km < c` of the predictor
(`update_data.py` lines 102-113), in squared form; `c` is one of the positive
literals 100, 30, 50. -/
def fireDistClose (f : Wildfire) (lat lon c : ℚ) : Bool :=
  decide (((f.latitude - lat) ^ 2 + (f.longitude - lon) ^ 2) * 111 ^ 2 < c ^ 2)

/-- The fire loop of `generate_predictions_with_real_aqhi` (`update_data.py`
lines 99-113): collect the ids of OUT_OF_CONTROL fires closer than 100 km
(the code compares `fire.status.value == "OC"`), and accumulate the discrete
impact — 2 for a fire closer than 30 km with more than 100 ha, else 1 for a
fire closer than 50 km, combined by `max`. -/
def fireScan (wildfires : List Wildfire) (lat lon : ℚ) : List String × ℤ :=
  wildfires.foldl
    (fun acc f =>
      if fireDistClose f lat lon 100 && (f.status.value == "OC") then
        (acc.1 ++ [f.fire_id],
         if fireDistClose f lat lon 30 && decide ((100 : ℚ) < f.size_hectares) then
           max acc.2 2
         else if fireDistClose f lat lon 50 then max acc.2 1
         else acc.2)
      else acc)
    ([], 0)

/-- One `(community, hour)` cell of `generate_predictions_with_real_aqhi`
(`update_data.py` lines 70-131): seed the index with the St. John's baseline
(the code assigns the same baseline to every community), derive PM2.5 from it,
scan the fires, cap the adjusted index with `min(10, ...)`, bump PM2.5 by
`impact * 15` when an impact was added, and set the confidence to 0.75 when
any fire contributed and 0.9 otherwise. -/
def predictionFor (base : ℤ) (wildfires : List Wildfire) (lat lon : ℚ)
    (now : DateTime) (hour : ℕ) : AQHIPrediction :=
  let pm25 := aqhiToPm25 base
  let scan := fireScan wildfires lat lon
  let aqhi := min 10 (base + scan.2)
  let pm25 := if 0 < scan.2 then pm25 + (scan.2 : ℚ) * 15 else pm25
  { timestamp := ⟨now.epochMicros + hour * 3600000000⟩
    latitude := lat
    longitude := lon
    aqhi_value := aqhi
    pm25_concentration := pm25
    source_fire_ids := scan.1
    confidence := if scan.1.isEmpty then 0.9 else 0.75 }

/-- The hardcoded community table of `generate_predictions_with_real_aqhi`
(`update_data.py` lines 56-65). -/
def communities : List (String × ℚ × ℚ) :=
  [("St. Johns", (47.5615, -52.7126)),
   ("Mount Pearl", (47.5189, -52.8061)),
   ("Conception Bay South", (47.5297, -52.9547)),
   ("Paradise", (47.5361, -52.8579)),
   ("Holyrood", (47.3875, -53.1356)),
   ("Bay Roberts", (47.5989, -53.2644)),
   ("Carbonear", (47.7369, -53.2144)),
   ("Harbour Grace", (47.7050, -53.2144))]

/-- The full prediction sweep of `generate_predictions_with_real_aqhi`: one
prediction per community per hour 0..11, in iteration order. -/
def generatePredictionsWithRealAqhi (base : ℤ) (wildfires : List Wildfire)
    (now : DateTime) : List AQHIPrediction :=
  communities.foldr
    (fun c acc =>
      ((List.range 12).map fun h => predictionFor base wildfires c.2.1 c.2.2 now h) ++ acc)
    []

/-- Modelled from the spec: the PM2.5-to-index conversion of spec §4.5 steps
5-6 (no such conversion exists in the source; `update_data.py` only converts
in the opposite direction).  Each breakpoint segment maps its PM2.5 range
linearly onto the stated index range, the result is rounded and floored at 1.
The spec leaves the slope above 150 µg/m³ open; the 55-150 slope is continued
there. -/
def pm25ToIndexSpec (pm : ℚ) : ℤ :=
  let raw : ℚ :=
    if pm ≤ 12 then 1 + pm / 12 * 2
    else if pm ≤ 35 then 4 + (pm - 12) / 23 * 2
    else if pm ≤ 55 then 7 + (pm - 35) / 20 * 1
    else if pm ≤ 150 then 9 + (pm - 55) / 95 * 1
    else 10 + (pm - 150) / 95
  max 1 (round raw)

/-- St. John's latitude, from the community table. -/
def stJohnsLat : ℚ := 47.5615

/-- St. John's longitude, from the community table. -/
def stJohnsLon : ℚ := -52.7126

/-- The fire of the spec's predictor scenario: OUT_OF_CONTROL, 500 ha, at a
planar distance of exactly 20 km (20/111 degrees due north) from St. John's. -/
def fireC1 : Wildfire :=
  { fire_id := "NL-C1"
    latitude := stJohnsLat + 20 / 111
    longitude := stJohnsLon
    size_hectares := 500
    status := .OUT_OF_CONTROL
    start_date := ⟨0⟩
    last_updated := ⟨0⟩
    agency := "NL" }

/-- A CSV row that passes every filter: in-bounds coordinates, agency NL,
a parseable size and an OC status. -/
def goodCsvRow : CsvRow :=
  { lat := some (.val 47.5)
    lon := some (.val (-53))
    agency := some "NL"
    firename := some "TEST"
    hectares := some (.val 120)
    stage_of_control := some "OC" }

/-- The wildfire that `_parse_csv_fires` produces from `goodCsvRow`. -/
def goodCsvWildfire : Wildfire :=
  { fire_id := "TEST"
    latitude := 47.5
    longitude := -53
    size_hectares := 120
    status := .OUT_OF_CONTROL
    start_date := ⟨0⟩
    last_updated := ⟨0⟩
    agency := "NL" }

/-- A CSV row whose latitude cell raises `ValueError` in `float(...)`: the
payload is fetched successfully but yields no parseable fire. -/
def badCsvRow : CsvRow := { lat := some .err }

/-- A JSON feature that passes every filter. -/
def goodJsonFeature : JsonFeature :=
  { coordinates := [-52.7126, 47.5615]
    props := { fire_id := some "J1", agency := some "NL",
               hectares := some (.val 10), status := some "OC" } }

/-- A fire 60 km due north of (48, -53): inside the 100 km contributor radius
but outside both impact radii. -/
def fireC10 : Wildfire :=
  { fire_id := "NL-C10"
    latitude := 48 + 60 / 111
    longitude := -53
    size_hectares := 500
    status := .OUT_OF_CONTROL
    start_date := ⟨0⟩
    last_updated := ⟨0⟩
    agency := "NL" }

/-- Helper: the 30 km disc is contained in the 50 km disc. -/
theorem fireDistClose_30_to_50 (f : Wildfire) (lat lon : ℚ)
    (h : fireDistClose f lat lon 30 = true) : fireDistClose f lat lon 50 = true := by
  simp only [fireDistClose, decide_eq_true_eq] at h ⊢
  nlinarith [h]

/-- C1.  The spec's predictor scenario (baseline 2, one OUT_OF_CONTROL fire at
20 km with 500 ha) as the code actually computes it, for every forecast hour:
the code adds a discrete impact of 2 index points (fire closer than 30 km and
larger than 100 ha), giving index min(10, 2+2) = 4, and PM2.5
aqhiToPm25(2) + 2*15 = 8.5 + 30 = 38.5 µg/m³; there is no weight, influence
radius or saturation computation. -/
theorem c1_predictor_scenario (now : DateTime) (hour : ℕ) :
    (predictionFor 2 [fireC1] stJohnsLat stJohnsLon now hour).aqhi_value = 4 ∧
    (predictionFor 2 [fireC1] stJohnsLat stJohnsLon now hour).pm25_concentration = 77 / 2 ∧
    (predictionFor 2 [fireC1] stJohnsLat stJohnsLon now hour).source_fire_ids = ["NL-C1"] ∧
    (predictionFor 2 [fireC1] stJohnsLat stJohnsLon now hour).confidence = 3 / 4 := by
  norm_num [predictionFor, fireScan, fireDistClose, fireC1, stJohnsLat, stJohnsLon,
    aqhiToPm25, pm25SegLow, FireStatus.value]

/-- C1, counterexample to the claim as stated: in the scenario the code emits
index 4 (not 6) and PM2.5 38.5 µg/m³ (not 30.5). -/
theorem c1_counterexample :
    (predictionFor 2 [fireC1] stJohnsLat stJohnsLon ⟨0⟩ 0).aqhi_value = 4 ∧
    (predictionFor 2 [fireC1] stJohnsLat stJohnsLon ⟨0⟩ 0).pm25_concentration = 77 / 2 ∧
    (predictionFor 2 [fireC1] stJohnsLat stJohnsLon ⟨0⟩ 0).aqhi_value ≠ 6 ∧
    (predictionFor 2 [fireC1] stJohnsLat stJohnsLon ⟨0⟩ 0).pm25_concentration ≠ 61 / 2 := by
  norm_num [predictionFor, fireScan, fireDistClose, fireC1, stJohnsLat, stJohnsLon,
    aqhiToPm25, pm25SegLow, FireStatus.value]

/-- C3.  Every emitted prediction has `aqhi_value = min(10, baseline + fire
impact)` (`update_data.py` line 116), hence the index never exceeds 10. -/
theorem c3_aqhi_capped_at_ten (base : ℤ) (wildfires : List Wildfire) (lat lon : ℚ)
    (now : DateTime) (hour : ℕ) :
    (predictionFor base wildfires lat lon now hour).aqhi_value
        = min 10 (base + (fireScan wildfires lat lon).2) ∧
    (predictionFor base wildfires lat lon now hour).aqhi_value ≤ 10 :=
  ⟨rfl, min_le_left _ _⟩

/-- C3, counterexample to the claim as stated: no input whatsoever makes the
code emit an index above 10 — the claimed severe fire input does not exist. -/
theorem c3_counterexample :
    ¬ ∃ (base : ℤ) (wildfires : List Wildfire) (lat lon : ℚ) (now : DateTime) (hour : ℕ),
        10 < (predictionFor base wildfires lat lon now hour).aqhi_value := by
  rintro ⟨b, w, la, lo, n, h, hgt⟩
  exact absurd (show (predictionFor b w la lo n h).aqhi_value ≤ 10 from min_le_left _ _)
    (not_le.mpr hgt)

/-- C4.  The conversion at the cited lines maps the integer index to PM2.5
(the inverse direction of the claim); over the integers it is monotone
non-decreasing, and adjacent segments agree exactly at indices 3, 8 and 10. -/
theorem c4_inverse_conversion_monotone :
    (∀ a b : ℤ, a ≤ b → aqhiToPm25 a ≤ aqhiToPm25 b) ∧
    pm25SegLow 3 = pm25SegMid 3 ∧
    pm25SegHigh 8 = pm25SegVeryHigh 8 ∧
    pm25SegVeryHigh 10 = pm25SegExtreme 10 := by
  refine ⟨?_, by norm_num [pm25SegLow, pm25SegMid], by norm_num [pm25SegHigh, pm25SegVeryHigh],
    by norm_num [pm25SegVeryHigh, pm25SegExtreme]⟩
  intro a b hab
  unfold aqhiToPm25 pm25SegLow pm25SegMid pm25SegHigh pm25SegVeryHigh pm25SegExtreme
  split_ifs <;> (try simp only [not_le, Int.lt_iff_add_one_le] at *) <;> (try qify at *) <;>
    linarith

/-- C4, witness. -/
theorem c4_witness : (2 : ℤ) ≤ 5 ∧ aqhiToPm25 2 ≤ aqhiToPm25 5 :=
  ⟨by norm_num, c4_inverse_conversion_monotone.1 2 5 (by norm_num)⟩

/-- C4, counterexample to the claim as stated: at the 35 µg/m³ breakpoint the
lower segment gives 35.1 while the upper gives 35 (the code's slope 7.7 is a
rounding of 23/3), so the table is not segment-consistent at its breakpoints;
moreover the emitted (PM2.5, index) pairs do not satisfy the spec's
PM2.5-to-index table — in the C1 scenario the code emits index 4 with a PM2.5
that the spec table maps to 7. -/
theorem c4_counterexample :
    pm25SegMid 6 = 351 / 10 ∧ pm25SegHigh 6 = 35 ∧ aqhiToPm25 6 = pm25SegMid 6 ∧
    (351 / 10 : ℚ) ≠ 35 ∧
    pm25ToIndexSpec ((predictionFor 2 [fireC1] stJohnsLat stJohnsLon ⟨0⟩ 0).pm25_concentration)
      = 7 ∧
    (predictionFor 2 [fireC1] stJohnsLat stJohnsLon ⟨0⟩ 0).aqhi_value ≠ 7 := by
  norm_num [predictionFor, fireScan, fireDistClose, fireC1, stJohnsLat, stJohnsLon,
    aqhiToPm25, pm25SegLow, pm25SegMid, pm25SegHigh, FireStatus.value, pm25ToIndexSpec,
    round_eq]

/-- C6.  Any case variant of "OC" or "OUT OF CONTROL" normalizes to
OUT_OF_CONTROL, and a status string matching no key of `status_map` (under
the code's case-insensitive substring test) yields UNKNOWN; the function is
total, so it never raises. -/
theorem c6_status_normalization (s : String) :
    ((pyUpper s = "OC" ∨ pyUpper s = "OUT OF CONTROL") →
      parseFireStatus s = .OUT_OF_CONTROL) ∧
    ((statusMapKeys.all fun k => !(pyIn k (pyUpper s))) = true →
      parseFireStatus s = .UNKNOWN) := by
  constructor
  · intro h
    unfold parseFireStatus
    rcases h with h | h <;> rw [h] <;> decide
  · intro h
    simp only [statusMapKeys, List.all_cons, List.all_nil, Bool.and_eq_true,
      Bool.and_true, Bool.not_eq_true'] at h
    obtain ⟨h1, h2, h3, h4, h5, h6, h7, h8⟩ := h
    simp [parseFireStatus, h1, h2, h3, h4, h5, h6, h7, h8]

/-- C6, witness. -/
theorem c6_witness :
    (pyUpper "oc" = "OC" ∨ pyUpper "oc" = "OUT OF CONTROL") ∧
    parseFireStatus "oc" = .OUT_OF_CONTROL ∧
    (statusMapKeys.all fun k => !(pyIn k (pyUpper "smoldering"))) = true ∧
    parseFireStatus "smoldering" = .UNKNOWN :=
  ⟨Or.inl (by decide), (c6_status_normalization "oc").1 (Or.inl (by decide)),
   by decide, (c6_status_normalization "smoldering").2 (by decide)⟩

/-- C2.  The fetcher tries CSV, then JSON, then KML; a format is abandoned on
a fetch failure; a successfully fetched payload is handed to that format's
parser and its result returned as-is (so a parse failure does not advance to
the next format); when all three fetches fail the result is the empty list,
not an exception. -/
theorem c2_format_fallback (now : DateTime) (rows : List CsvRow)
    (feats : List JsonFeature) (pms : List Placemark)
    (cs : List (FetchOutcome (List CsvRow))) (js : List (FetchOutcome (List JsonFeature)))
    (ks : List (FetchOutcome (List Placemark)))
    (oc : FetchOutcome (List CsvRow)) (oj : FetchOutcome (List JsonFeature))
    (okml : FetchOutcome (List Placemark))
    (hc : oc.isOk = false) (hj : oj.isOk = false) (hk : okml.isOk = false) :
    fetchActiveFires now ⟨.ok rows :: cs, js, ks⟩ = parseCsvFires now rows ∧
    fetchActiveFires now ⟨oc :: cs, .ok feats :: js, ks⟩ = parseJsonFires now feats ∧
    fetchActiveFires now ⟨oc :: cs, oj :: js, .ok pms :: ks⟩ = parseKmlFires now pms ∧
    fetchActiveFires now ⟨oc :: cs, oj :: js, okml :: ks⟩ = [] := by
  cases oc <;> cases oj <;> cases okml <;>
    simp_all [fetchActiveFires, requestResult, FetchOutcome.isOk]

/-- C2, witness. -/
theorem c2_witness :
    (FetchOutcome.netError : FetchOutcome (List CsvRow)).isOk = false ∧
    (FetchOutcome.httpError 404 : FetchOutcome (List JsonFeature)).isOk = false ∧
    (FetchOutcome.timedOut : FetchOutcome (List Placemark)).isOk = false ∧
    fetchActiveFires ⟨0⟩ ⟨[.ok [goodCsvRow]], [], []⟩ = parseCsvFires ⟨0⟩ [goodCsvRow] ∧
    fetchActiveFires ⟨0⟩ ⟨[.netError], [.httpError 404], [.timedOut]⟩ = [] :=
  ⟨rfl, rfl, rfl,
   (c2_format_fallback ⟨0⟩ [goodCsvRow] [] [] [] [] [] .netError (.httpError 404)
      .timedOut rfl rfl rfl).1,
   (c2_format_fallback ⟨0⟩ [] [] [] [] [] [] .netError (.httpError 404)
      .timedOut rfl rfl rfl).2.2.2⟩

/-- C2, counterexample to the claim as stated: a CSV payload that fetches
successfully but contains no parseable fire row makes the fetcher return the
CSV parser's empty result without advancing to the JSON format, even though
the JSON payload would have produced a fire. -/
theorem c2_counterexample :
    fetchActiveFires ⟨0⟩ ⟨[.ok [badCsvRow]], [.ok [goodJsonFeature]], []⟩ = [] ∧
    parseJsonFires ⟨0⟩ [goodJsonFeature] ≠ [] := by
  constructor
  · simp [fetchActiveFires, requestResult, parseCsvFires, csvLatLon, badCsvRow, csvFloatCell]
  · norm_num [parseJsonFires, goodJsonFeature, isInNlBounds, pyLower,
      createWildfireFromProperties, parseSize]
    decide

/-- C7.  There is no per-source retry: each format's fetch helper issues a
single request, and any failure — transient or 4xx alike — is caught and
converted to `None`, advancing to the next format within the same invocation
(the later outcomes `cs`, `js`, `ks` are never consulted); total failure
yields the empty list rather than a typed `SourceUnavailable` value (no such
type exists in the code base). -/
theorem c7_no_per_source_retry (now : DateTime)
    (cs : List (FetchOutcome (List CsvRow))) (js : List (FetchOutcome (List JsonFeature)))
    (ks : List (FetchOutcome (List Placemark)))
    (o1 : FetchOutcome (List CsvRow)) (o2 : FetchOutcome (List JsonFeature))
    (o3 : FetchOutcome (List Placemark))
    (h1 : o1.isOk = false) (h2 : o2.isOk = false) (h3 : o3.isOk = false) :
    fetchActiveFires now ⟨o1 :: cs, o2 :: js, o3 :: ks⟩ = [] ∧
    requestResult (o1 :: cs) = none ∧
    fetchActiveFires now ⟨.httpError 404 :: cs, o2 :: js, o3 :: ks⟩
      = fetchActiveFires now ⟨.netError :: cs, o2 :: js, o3 :: ks⟩ := by
  cases o1 <;> cases o2 <;> cases o3 <;>
    simp_all [fetchActiveFires, requestResult, FetchOutcome.isOk]

/-- C7, witness. -/
theorem c7_witness :
    (FetchOutcome.timedOut : FetchOutcome (List CsvRow)).isOk = false ∧
    (FetchOutcome.netError : FetchOutcome (List JsonFeature)).isOk = false ∧
    (FetchOutcome.httpError 500 : FetchOutcome (List Placemark)).isOk = false ∧
    fetchActiveFires ⟨0⟩ ⟨[.timedOut], [.netError], [.httpError 500]⟩ = [] :=
  ⟨rfl, rfl, rfl,
   (c7_no_per_source_retry ⟨0⟩ [] [] [] .timedOut .netError (.httpError 500)
      rfl rfl rfl).1⟩

/-- C7, counterexample to the claim as stated: a transient network failure of
the CSV request is not retried — a second CSV attempt that would have
succeeded is never made, and the fetcher ends with the empty list instead of
the CSV payload's fires. -/
theorem c7_counterexample :
    fetchActiveFires ⟨0⟩ ⟨[.netError, .ok [goodCsvRow]], [.netError], [.netError]⟩ = [] ∧
    parseCsvFires ⟨0⟩ [goodCsvRow] ≠ [] := by
  constructor
  · rfl
  · norm_num [parseCsvFires, goodCsvRow, csvLatLon, csvFloatCell, isInNlBounds, pyLower,
      createWildfireFromProperties, parseSize, csvProps]
    decide

/-- Helper: the normalizer copies its `lat`/`lon` arguments into the entity. -/
theorem createWildfireFromProperties_coords {p : RawProps} {lat lon : ℚ}
    {now : DateTime} {f : Wildfire}
    (h : createWildfireFromProperties p lat lon now = some f) :
    f.latitude = lat ∧ f.longitude = lon := by
  unfold createWildfireFromProperties at h
  cases hps : parseSize p with
  | none => rw [hps] at h; cases h
  | some sz =>
    rw [hps] at h
    injection h with h'
    subst h'
    exact ⟨rfl, rfl⟩

/-- Helper: every fire produced by the CSV parser passed the bounds filter. -/
theorem parseCsvFires_bounds (now : DateTime) :
    ∀ (rows : List CsvRow) (f : Wildfire), f ∈ parseCsvFires now rows →
      isInNlBounds f.latitude f.longitude = true := by
  intro rows
  induction rows with
  | nil => intro f hf; cases hf
  | cons r rs ih =>
    intro f hf
    simp only [parseCsvFires] at hf
    split at hf
    · exact ih f hf
    · rename_i lat lon heq
      split at hf
      · rename_i hb
        split at hf
        · split at hf
          · rename_i w hcw
            rcases List.mem_cons.mp hf with rfl | hf'
            · obtain ⟨h1, h2⟩ := createWildfireFromProperties_coords hcw
              rw [h1, h2]; exact hb
            · exact ih f hf'
          · exact ih f hf
        · exact ih f hf
      · exact ih f hf

/-- Helper: every fire produced by the JSON parser passed the bounds filter. -/
theorem parseJsonFires_bounds (now : DateTime) :
    ∀ (feats : List JsonFeature) (f : Wildfire), f ∈ parseJsonFires now feats →
      isInNlBounds f.latitude f.longitude = true := by
  intro feats
  induction feats with
  | nil => intro f hf; cases hf
  | cons ft fs ih =>
    intro f hf
    simp only [parseJsonFires] at hf
    split at hf
    · rename_i lon lat rest heq
      split at hf
      · rename_i hb
        split at hf
        · split at hf
          · rename_i w hcw
            rcases List.mem_cons.mp hf with rfl | hf'
            · obtain ⟨h1, h2⟩ := createWildfireFromProperties_coords hcw
              rw [h1, h2]; exact hb
            · exact ih f hf'
          · exact ih f hf
        · exact ih f hf
      · exact ih f hf
    · exact ih f hf

/-- Helper: every fire produced by the KML parser passed the bounds filter. -/
theorem parseKmlFires_bounds (now : DateTime) :
    ∀ (pms : List Placemark) (f : Wildfire), f ∈ parseKmlFires now pms →
      isInNlBounds f.latitude f.longitude = true := by
  intro pms
  induction pms with
  | nil => intro f hf; cases hf
  | cons pm ps ih =>
    intro f hf
    simp only [parseKmlFires] at hf
    split at hf
    · exact ih f hf
    · split at hf
      · split at hf
        · rename_i lon lat
          split at hf
          · rename_i hb
            split at hf
            · split at hf
              · rename_i w hcw
                rcases List.mem_cons.mp hf with rfl | hf'
                · obtain ⟨h1, h2⟩ := createWildfireFromProperties_coords hcw
                  rw [h1, h2]; exact hb
                · exact ih f hf'
              · exact ih f hf
            · exact ih f hf
          · exact ih f hf
        · cases hf
      · exact ih f hf

/-- C5.  Whatever the environment and whichever of the three parse paths
produced it, every wildfire returned by `fetch_active_fires` has coordinates
inside the configured NL bounding box. -/
theorem c5_output_in_bounds (now : DateTime) (env : FetchEnv) (f : Wildfire)
    (hf : f ∈ fetchActiveFires now env) :
    isInNlBounds f.latitude f.longitude = true := by
  unfold fetchActiveFires at hf
  cases hcsv : requestResult env.csv with
  | some rows =>
    rw [hcsv] at hf
    exact parseCsvFires_bounds now rows f hf
  | none =>
    rw [hcsv] at hf
    cases hjson : requestResult env.json with
    | some feats =>
      rw [hjson] at hf
      exact parseJsonFires_bounds now feats f hf
    | none =>
      rw [hjson] at hf
      cases hkml : requestResult env.kml with
      | some pms =>
        rw [hkml] at hf
        exact parseKmlFires_bounds now pms f hf
      | none => rw [hkml] at hf; cases hf

/-- C5, witness. -/
theorem c5_witness :
    goodCsvWildfire ∈ fetchActiveFires ⟨0⟩ ⟨[.ok [goodCsvRow]], [], []⟩ ∧
    isInNlBounds goodCsvWildfire.latitude goodCsvWildfire.longitude = true := by
  have hlist : fetchActiveFires ⟨0⟩ ⟨[.ok [goodCsvRow]], [], []⟩ = [goodCsvWildfire] := by
    have hnl : pyLower "NL" = "nl" := by decide
    have hst : parseFireStatus (pyUpper "OC") = FireStatus.OUT_OF_CONTROL := by decide
    norm_num [fetchActiveFires, requestResult, parseCsvFires, goodCsvRow, csvLatLon,
      csvFloatCell, isInNlBounds, createWildfireFromProperties, parseSize,
      csvProps, goodCsvWildfire, statusRaw, pyOrStr, dateChain, hnl, hst]
    decide
  have hm : goodCsvWildfire ∈ fetchActiveFires ⟨0⟩ ⟨[.ok [goodCsvRow]], [], []⟩ := by
    rw [hlist]; exact List.mem_singleton.mpr rfl
  exact ⟨hm, c5_output_in_bounds ⟨0⟩ _ goodCsvWildfire hm⟩

/-- Helper: the accumulator of the dedupe loop stays pairwise separated —
every accepted pair is at least the threshold apart. -/
theorem dedupeAux_pairwise (t : ℚ) (xs : List Location) :
    ∀ acc : List Location,
      acc.Pairwise (fun a b => withinThreshold b a t = false) →
      (dedupeAux t acc xs).Pairwise (fun a b => withinThreshold b a t = false) := by
  induction xs with
  | nil => intro acc h; exact h
  | cons l ls ih =>
    intro acc h
    by_cases hany : (acc.any fun e => withinThreshold l e t) = true
    · simp only [dedupeAux, if_pos hany]
      exact ih acc h
    · simp only [dedupeAux, if_neg hany]
      apply ih
      rw [List.pairwise_append]
      refine ⟨h, List.pairwise_singleton _ _, ?_⟩
      intro a ha b hb
      rw [List.mem_singleton] at hb
      rw [hb]
      cases hv : withinThreshold l a t
      · rfl
      · exact absurd (List.any_eq_true.mpr ⟨a, ha, hv⟩) hany

/-- Helper: on a list that is already pairwise separated, the dedupe loop
accepts every candidate. -/
theorem dedupeAux_sep (t : ℚ) (ys : List Location) :
    ∀ acc : List Location,
      (∀ e ∈ acc, ∀ l ∈ ys, withinThreshold l e t = false) →
      ys.Pairwise (fun a b => withinThreshold b a t = false) →
      dedupeAux t acc ys = acc ++ ys := by
  induction ys with
  | nil => intro acc _ _; simp [dedupeAux]
  | cons l ls ih =>
    intro acc hsep hpw
    have hany : ¬((acc.any fun e => withinThreshold l e t) = true) := by
      intro hcontra
      obtain ⟨e, he, hwe⟩ := List.any_eq_true.mp hcontra
      rw [hsep e he l (List.mem_cons_self l ls)] at hwe
      cases hwe
    rw [List.pairwise_cons] at hpw
    obtain ⟨hl, hls⟩ := hpw
    simp only [dedupeAux, if_neg hany]
    rw [ih (acc ++ [l]) ?_ hls]
    · simp
    · intro e he x hx
      rcases List.mem_append.mp he with h1 | h1
      · exact hsep e h1 x (List.mem_cons_of_mem l hx)
      · rw [List.mem_singleton] at h1
        subst h1
        exact hl x hx

/-- C8.  Deduplication is idempotent: the output is pairwise separated by at
least the threshold (under the planar degree-times-111 km distance), so a
second run accepts every location and returns the output unchanged;
`_get_unique_locations` is exactly this dedupe applied to the fires'
coordinate list. -/
theorem c8_dedupe_idempotent (t : ℚ) (ls : List Location) (wildfires : List Wildfire) :
    dedupeLocations t (dedupeLocations t ls) = dedupeLocations t ls ∧
    (dedupeLocations t ls).Pairwise (fun a b => withinThreshold b a t = false) ∧
    getUniqueLocations wildfires t
      = dedupeLocations t (wildfires.map fun f => (f.latitude, f.longitude)) := by
  have hpw : (dedupeLocations t ls).Pairwise (fun a b => withinThreshold b a t = false) :=
    dedupeAux_pairwise t ls [] List.Pairwise.nil
  refine ⟨?_, hpw, rfl⟩
  show dedupeAux t [] (dedupeLocations t ls) = dedupeLocations t ls
  rw [dedupeAux_sep t (dedupeLocations t ls) [] (by intro e he; cases he) hpw]
  simp

/-- C9.  For the three entity classes that define `from_dict` — `Wildfire`,
`WeatherData` (the spec's WeatherObservation) and `AQHIPrediction` — the round
trip `from_dict(to_dict(x)) = x` is lossless in every field. -/
theorem c9_roundtrip_lossless (w : Wildfire) (d : WeatherData) (p : AQHIPrediction) :
    Wildfire.fromDict (Wildfire.toDict w) = some w ∧
    WeatherData.fromDict (WeatherData.toDict d) = some d ∧
    AQHIPrediction.fromDict (AQHIPrediction.toDict p) = some p := by
  refine ⟨?_, ?_, ?_⟩
  · obtain ⟨fid, la, lo, sz, st, sd, lu, ag, fn, ca⟩ := w
    cases st <;> cases fn <;> cases ca <;> rfl
  · obtain ⟨ts, la, lo, ws, wd, tc, rh, pk, pr⟩ := d
    rfl
  · obtain ⟨ts, la, lo, aq, pm, ids, cf⟩ := p
    rfl

/-- C9, counterexample to the claim as stated: `WeatherForecast` exposes no
inverse reconstruction — of the entity classes only `Wildfire`, `WeatherData`
and `AQHIPrediction` define `from_dict`. -/
theorem c9_counterexample :
    hasFromDict EntityKind.weatherForecast = false ∧
    hasFromDict EntityKind.wildfire = true ∧
    hasFromDict EntityKind.weatherData = true ∧
    hasFromDict EntityKind.aqhiPrediction = true := by
  decide

/-- C10.  A single OUT_OF_CONTROL fire at 50 km or more but under 100 km is
recorded as a contributor (so the prediction carries a non-empty fire list and
the lowered confidence 0.75), yet adds no impact: the index and the PM2.5 of
the prediction equal the values computed with no fires at all. -/
theorem c10_distant_contributor (base : ℤ) (lat lon : ℚ) (now : DateTime)
    (hour : ℕ) (f : Wildfire)
    (hst : f.status = .OUT_OF_CONTROL)
    (h50 : fireDistClose f lat lon 50 = false)
    (h100 : fireDistClose f lat lon 100 = true) :
    (predictionFor base [f] lat lon now hour).source_fire_ids = [f.fire_id] ∧
    (predictionFor base [f] lat lon now hour).confidence = 3 / 4 ∧
    (predictionFor base [f] lat lon now hour).aqhi_value
      = (predictionFor base [] lat lon now hour).aqhi_value ∧
    (predictionFor base [f] lat lon now hour).pm25_concentration
      = (predictionFor base [] lat lon now hour).pm25_concentration := by
  have h30 : fireDistClose f lat lon 30 = false := by
    cases h : fireDistClose f lat lon 30
    · rfl
    · rw [fireDistClose_30_to_50 f lat lon h] at h50
      cases h50
  have hscan : fireScan [f] lat lon = ([f.fire_id], 0) := by
    simp [fireScan, h100, h30, h50, hst, FireStatus.value]
  have hnil : fireScan ([] : List Wildfire) lat lon = ([], 0) := rfl
  refine ⟨?_, ?_, ?_, ?_⟩ <;> (simp [predictionFor, hscan, hnil]; try norm_num)

/-- C10, witness. -/
theorem c10_witness :
    fireC10.status = FireStatus.OUT_OF_CONTROL ∧
    fireDistClose fireC10 48 (-53) 50 = false ∧
    fireDistClose fireC10 48 (-53) 100 = true ∧
    (predictionFor 2 [fireC10] 48 (-53) ⟨0⟩ 0).source_fire_ids = [fireC10.fire_id] ∧
    (predictionFor 2 [fireC10] 48 (-53) ⟨0⟩ 0).aqhi_value
      = (predictionFor 2 ([] : List Wildfire) 48 (-53) ⟨0⟩ 0).aqhi_value := by
  have h50 : fireDistClose fireC10 48 (-53) 50 = false := by
    norm_num [fireDistClose, fireC10]
  have h100 : fireDistClose fireC10 48 (-53) 100 = true := by
    norm_num [fireDistClose, fireC10]
  have hmain := c10_distant_contributor 2 48 (-53) ⟨0⟩ 0 fireC10 rfl h50 h100
  exact ⟨rfl, h50, h100, hmain.1, hmain.2.2.1⟩
